import Mathlib

/-!
Shallow embedding of `src/core/ext/transport/chttp2/client/insecure/channel_create.c`:
the insecure chttp2 client connector (an asynchronous connection-attempt state
machine), its client-channel factory, and the public entry point
`grpc_insecure_channel_create`.

Modelling conventions:
* `grpc_error *` is `Option Nat`; `none` models `GRPC_ERROR_NONE` and
  `GRPC_ERROR_REF e = e` (errors are values here, refcounting of errors is
  not observable in these claims).
* Pointers to opaque collaborator objects (`grpc_endpoint *`, transports,
  slice buffers holding leftover reads) are `Nat` handles.
* Each C callback becomes a function from the connector state (the contents
  of the `connector` struct) to the new state plus the ordered list of calls
  it makes into external collaborators (`Effect`).
* `GPR_ASSERT` failure is a fatal abort, modelled by an `Option` result
  being `none`.
* External collaborators (`grpc_create_chttp2_transport`,
  `grpc_channel_create`, `grpc_get_http_proxy_server`) are parameters of the
  functions that call them.
-/

namespace ChannelCreate

/-- A grpc_error pointer: `none` models GRPC_ERROR_NONE, `some e` a real error. -/
abbrev GError := Option Nat

/-- A grpc_endpoint pointer, opaque handle. -/
abbrev Endpoint := Nat

/-- A grpc_transport pointer as produced by grpc_create_chttp2_transport, opaque handle. -/
abbrev Transport := Nat

/-- The grpc_slice_buffer pointer holding leftover bytes read during handshaking. -/
abbrev ReadBuffer := Nat

/-- A grpc_closure: the callback function pointer (0 models a NULL cb) and its cb_arg. -/
structure Closure where
  cb : Nat
  cb_arg : Nat
  deriving DecidableEq

/-- Identifier of a static grpc_arg_pointer_vtable constant of this file. -/
inductive VtableId where
  | ccFactory
  deriving DecidableEq

/-- A grpc_arg value: string, integer, or pointer-with-vtable. -/
inductive ArgValue where
  | str (s : String)
  | int (i : Int)
  | ptr (p : Nat) (vt : VtableId)
  deriving DecidableEq

/-- One grpc_arg entry of a channel-args bag. -/
structure GrpcArg where
  key : String
  value : ArgValue
  deriving DecidableEq

/-- grpc_channel_args: the immutable key/value options bag. -/
abbrev ChannelArgs := List GrpcArg

/-- A handshaker installed into a handshake manager. The only concrete kind this
file installs is the HTTP CONNECT proxy handshaker, parameterized with the proxy
server address and the logical server name. -/
inductive Handshaker where
  | httpConnect (proxy_server : String) (server_name : String)
  deriving DecidableEq

/-- A grpc_handshake_manager: the ordered pipeline of handshakers it holds. -/
abbrev HandshakeMgr := List Handshaker

/-- grpc_handshake_manager_create: a fresh manager holds no handshakers. -/
def grpc_handshake_manager_create : HandshakeMgr := []

/-- grpc_handshake_manager_add: appends one handshaker to the pipeline. -/
def grpc_handshake_manager_add (mgr : HandshakeMgr) (h : Handshaker) : HandshakeMgr :=
  mgr ++ [h]

/-- grpc_http_connect_handshaker_create(proxy_server, server_name). -/
def grpc_http_connect_handshaker_create (proxy_server server_name : String) : Handshaker :=
  Handshaker.httpConnect proxy_server server_name

/-- grpc_connect_in_args: the inputs of one connection attempt. The
initial_connect_string slice is its byte contents. -/
structure ConnectInArgs where
  interested_parties : Nat
  addr : Nat
  deadline : Int
  initial_connect_string : List Nat
  channel_args : ChannelArgs
  deriving DecidableEq

/-- grpc_connect_out_args: the caller's result slot. `memset(result, 0, ...)`
zeroes both fields to `none`. -/
structure ConnectOutArgs where
  transport : Option Transport
  channel_args : Option ChannelArgs
  deriving DecidableEq

/-- GRPC_SLICE_IS_EMPTY: the slice has length zero. -/
def GRPC_SLICE_IS_EMPTY (s : List Nat) : Bool := s.isEmpty

/-- The `connector` struct of channel_create.c: refcount, the stored completion
closure pointer (`none` models NULL, the sentinel), the pending in/out args, the
initial-string write buffer, the tcp endpoint out-parameter, and the owned
handshake manager. -/
structure connector where
  refs : Nat
  notify : Option Closure
  args : ConnectInArgs
  result : ConnectOutArgs
  initial_string_buffer : List Nat
  tcp : Option Endpoint
  handshake_mgr : HandshakeMgr
  deriving DecidableEq

/-- The calls the connector makes into external collaborators, in program order. -/
inductive Effect where
  | tcpClientConnect (interested_parties : Nat) (channel_args : ChannelArgs)
      (addr : Nat) (deadline : Int)
  | endpointWrite (tcp : Endpoint) (buffer : List Nat)
  | doHandshake (mgr : HandshakeMgr) (tcp : Endpoint) (channel_args : ChannelArgs)
      (deadline : Int) (acceptor : Option Nat)
  | startReading (t : Transport) (rb : ReadBuffer)
  | schedClosure (cl : Option Closure) (err : GError)
  | channelArgsDestroy (a : ChannelArgs)
  | freeReadBuffer (rb : ReadBuffer)
  | handshakeMgrDestroy (mgr : HandshakeMgr)
  | freeConnector
  deriving DecidableEq

/-- connector_ref: increments the refcount. -/
def connector_ref (c : connector) : connector :=
  { c with refs := c.refs + 1 }

/-- connector_unref: decrements the refcount; when it reaches zero, destroys the
owned handshake manager and frees the connector. -/
def connector_unref (c : connector) : connector × List Effect :=
  let c1 := { c with refs := c.refs - 1 }
  if c1.refs = 0 then
    (c1, [Effect.handshakeMgrDestroy c1.handshake_mgr, Effect.freeConnector])
  else
    (c1, [])

/-- on_initial_connect_string_sent: the completion callback of the
initial-connect-string endpoint write. It only releases the reference taken
before the write was issued; the error argument is ignored and nothing else
happens. -/
def on_initial_connect_string_sent (c : connector) (error : GError) :
    connector × List Effect :=
  connector_unref c

/-- on_handshake_done: the handshake-manager completion callback.
`create_transport` models the external grpc_create_chttp2_transport collaborator;
its result is asserted non-null (`none` result = fatal GPR_ASSERT failure).
On error: destroys the negotiated args, frees the leftover read buffer.
On success: creates the transport, starts it reading from the leftover buffer,
stores transport and args into the result slot.
Either way the stored notify pointer is cleared to NULL and the saved closure is
scheduled with the error. -/
def on_handshake_done (create_transport : ChannelArgs → Endpoint → Option Transport)
    (c : connector) (endpoint : Endpoint) (args : ChannelArgs)
    (read_buffer : ReadBuffer) (error : GError) : Option (connector × List Effect) :=
  match error with
  | some e =>
      some ({ c with notify := none },
            [Effect.channelArgsDestroy args, Effect.freeReadBuffer read_buffer,
             Effect.schedClosure c.notify (some e)])
  | none =>
      match create_transport args endpoint with
      | none => none
      | some t =>
          some ({ c with
                    result := { transport := some t, channel_args := some args },
                    notify := none },
                [Effect.startReading t read_buffer,
                 Effect.schedClosure c.notify none])

/-- connected: the tcp-connect completion callback. If the endpoint
out-parameter is non-NULL and the initial connect string is non-empty, it fills
the write buffer, takes a reference, and issues the endpoint write (completion:
on_initial_connect_string_sent). If the endpoint is non-NULL and the string is
empty, it starts the handshake pipeline with the endpoint, the caller's channel
args, the original deadline and a NULL acceptor. If the endpoint is NULL, it
zeroes the result slot, clears notify to NULL and schedules the saved closure
with the connect error. -/
def connected (c : connector) (error : GError) : connector × List Effect :=
  match c.tcp with
  | some tcp =>
      if !(GRPC_SLICE_IS_EMPTY c.args.initial_connect_string) then
        let c1 := { c with initial_string_buffer := [] }
        let c2 := { c1 with initial_string_buffer :=
                      c1.initial_string_buffer ++ c1.args.initial_connect_string }
        let c3 := connector_ref c2
        (c3, [Effect.endpointWrite tcp c3.initial_string_buffer])
      else
        (c, [Effect.doHandshake c.handshake_mgr tcp c.args.channel_args
               c.args.deadline none])
  | none =>
      ({ c with result := { transport := none, channel_args := none }, notify := none },
       [Effect.schedClosure c.notify error])

/-- connector_shutdown: a no-op. -/
def connector_shutdown (c : connector) : connector × List Effect := (c, [])

/-- connector_connect: asserts no connect is in flight (`c.notify` is the NULL
sentinel) and that the supplied closure has a non-null callback (each failed
assertion is fatal: result `none`); then stores the closure, args, result slot,
clears the tcp out-parameter and issues the asynchronous tcp connect. -/
def connector_connect (c : connector) (args : ConnectInArgs)
    (result : ConnectOutArgs) (notify : Closure) : Option (connector × List Effect) :=
  if c.notify = none then
    if notify.cb ≠ 0 then
      some ({ c with notify := some notify, args := args, result := result, tcp := none },
            [Effect.tcpClientConnect args.interested_parties args.channel_args
               args.addr args.deadline])
    else none
  else none

/-- client_channel_factory_create_subchannel: mallocs and zeroes a connector,
initializes its refcount to 1, creates a fresh handshake manager, and — when the
process-level proxy lookup (grpc_get_http_proxy_server, modelled as the
`proxy_name` parameter) yields an address — adds one HTTP CONNECT handshaker
parameterized with that address and the subchannel's server name. The built
connector is then handed to grpc_subchannel_create (external). -/
def client_channel_factory_create_subchannel (proxy_name : Option String)
    (server_name : String) : connector :=
  let c : connector :=
    { refs := 0, notify := none,
      args := { interested_parties := 0, addr := 0, deadline := 0,
                initial_connect_string := [], channel_args := [] },
      result := { transport := none, channel_args := none },
      initial_string_buffer := [], tcp := none, handshake_mgr := [] }
  let c := { c with refs := 1 }
  let c := { c with handshake_mgr := grpc_handshake_manager_create }
  match proxy_name with
  | some p =>
      let h := grpc_http_connect_handshaker_create p server_name
      { c with handshake_mgr := grpc_handshake_manager_add c.handshake_mgr h }
  | none => c

/-- cc_factory_arg_copy: returns the identical factory pointer. -/
def cc_factory_arg_copy (cc_factory : Nat) : Nat := cc_factory

/-- cc_factory_arg_destroy: a no-op. -/
def cc_factory_arg_destroy (cc_factory : Nat) : Unit := ()

/-- cc_factory_arg_cmp: orders two factory pointers by address. -/
def cc_factory_arg_cmp (cc_factory1 cc_factory2 : Nat) : Int :=
  if cc_factory1 < cc_factory2 then -1
  else if cc_factory1 > cc_factory2 then 1
  else 0

/-- A grpc_channel: either a real channel (opaque handle) or a lame channel
carrying its target, status code and diagnostic message. A C NULL channel is
`none` at the `Option Channel` level. -/
inductive Channel where
  | handle (h : Nat)
  | lame (target : String) (status : Nat) (msg : String)
  deriving DecidableEq

def GRPC_STATUS_INTERNAL : Nat := 13

def GRPC_ARG_SERVER_URI : String := "grpc.server_uri"

def GRPC_ARG_CLIENT_CHANNEL_FACTORY : String := "grpc.client_channel_factory"

/-- grpc_lame_client_channel_create: always yields a (non-null) lame channel. -/
def grpc_lame_client_channel_create (target : String) (status : Nat) (msg : String) :
    Channel :=
  Channel.lame target status msg

/-- grpc_channel_args_copy_and_add: copies the bag and appends the new entries
(copy-on-extend). -/
def grpc_channel_args_copy_and_add (args new_args : ChannelArgs) : ChannelArgs :=
  args ++ new_args

/-- client_channel_factory_create_channel: delegates to grpc_channel_create
(external collaborator, passed as a parameter; may yield NULL = `none`). -/
def client_channel_factory_create_channel
    (grpc_channel_create : String → ChannelArgs → Option Channel)
    (target : String) (args : ChannelArgs) : Option Channel :=
  grpc_channel_create target args

/-- The two args grpc_insecure_channel_create appends: the server URI string and
the client-channel-factory pointer tagged with cc_factory_arg_vtable. -/
def insecure_channel_new_args (factory_addr : Nat) (target : String) : ChannelArgs :=
  [{ key := GRPC_ARG_SERVER_URI, value := ArgValue.str target },
   { key := GRPC_ARG_CLIENT_CHANNEL_FACTORY,
     value := ArgValue.ptr factory_addr VtableId.ccFactory }]

/-- grpc_insecure_channel_create: asserts reserved is NULL (fatal otherwise,
modelled by `none`), extends the caller's args with the server URI and the
factory pointer, creates the channel through the factory, and returns it —
substituting a lame channel with GRPC_STATUS_INTERNAL and the fixed message
when channel creation yielded NULL. -/
def grpc_insecure_channel_create
    (grpc_channel_create : String → ChannelArgs → Option Channel)
    (factory_addr : Nat) (target : String) (args : ChannelArgs) (reserved : Nat) :
    Option Channel :=
  if reserved = 0 then
    let args_copy :=
      grpc_channel_args_copy_and_add args (insecure_channel_new_args factory_addr target)
    let channel := client_channel_factory_create_channel grpc_channel_create target args_copy
    some (match channel with
          | some ch => ch
          | none => grpc_lame_client_channel_create target GRPC_STATUS_INTERNAL
              "Failed to create client channel")
  else none

/-!
Trace semantics of one connection attempt. After `connector_connect`, exactly
one asynchronous sub-operation can be outstanding at a time (the raw connect,
the initial-string write, or the handshake pipeline); each completes by
delivering one `Event` which runs the corresponding callback of the source.
`PendingOp.idleOp` means no sub-operation is outstanding any more.
-/

/-- Which asynchronous sub-operation of the attempt is outstanding. -/
inductive PendingOp where
  | connectOp
  | writeOp
  | handshakeOp
  | idleOp
  deriving DecidableEq

/-- A completion delivered by an external collaborator: the raw tcp connect
(setting the endpoint out-parameter), the initial-string endpoint write, or the
handshake pipeline. -/
inductive Event where
  | tcpConnected (tcp : Option Endpoint) (error : GError)
  | writeDone (error : GError)
  | handshakeDone (ep : Endpoint) (hargs : ChannelArgs) (rb : ReadBuffer) (error : GError)
  deriving DecidableEq

/-- The sub-operation left outstanding by a callback, read off from the calls it
made: an endpoint write leaves the write outstanding, a do_handshake call leaves
the handshake outstanding, anything else leaves nothing outstanding. -/
def pendingAfter (effs : List Effect) : PendingOp :=
  if effs.any (fun e => match e with | Effect.endpointWrite _ _ => true | _ => false) then
    PendingOp.writeOp
  else if effs.any (fun e => match e with | Effect.doHandshake _ _ _ _ _ => true | _ => false) then
    PendingOp.handshakeOp
  else
    PendingOp.idleOp

/-- One step of the attempt: the outstanding sub-operation completes and its
callback from the source runs. An event that does not match the outstanding
sub-operation, or a fatal assertion inside a callback, yields `none`. -/
def stepEvent (create_transport : ChannelArgs → Endpoint → Option Transport)
    (c : connector) (p : PendingOp) (e : Event) :
    Option (connector × PendingOp × List Effect) :=
  match p, e with
  | PendingOp.connectOp, Event.tcpConnected tcp err =>
      let c1 := { c with tcp := tcp }
      let r := connected c1 err
      some (r.1, pendingAfter r.2, r.2)
  | PendingOp.writeOp, Event.writeDone err =>
      let r := on_initial_connect_string_sent c err
      some (r.1, PendingOp.idleOp, r.2)
  | PendingOp.handshakeOp, Event.handshakeDone ep hargs rb err =>
      match on_handshake_done create_transport c ep hargs rb err with
      | some r => some (r.1, PendingOp.idleOp, r.2)
      | none => none
  | _, _ => none

/-- Runs a list of completion events from a state, accumulating all collaborator
calls in order. -/
def runEvents (create_transport : ChannelArgs → Endpoint → Option Transport)
    (c : connector) (p : PendingOp) :
    List Event → Option (connector × PendingOp × List Effect)
  | [] => some (c, p, [])
  | e :: es =>
      match stepEvent create_transport c p e with
      | some (c1, p1, effs) =>
          match runEvents create_transport c1 p1 es with
          | some (c2, p2, effs2) => some (c2, p2, effs ++ effs2)
          | none => none
      | none => none

/-- A whole attempt: `connector_connect` followed by a list of completion
events. -/
def runAttempt (create_transport : ChannelArgs → Endpoint → Option Transport)
    (c : connector) (args : ConnectInArgs) (result : ConnectOutArgs)
    (notify : Closure) (events : List Event) :
    Option (connector × PendingOp × List Effect) :=
  match connector_connect c args result notify with
  | some (c1, effs) =>
      match runEvents create_transport c1 PendingOp.connectOp events with
      | some (c2, p2, effs2) => some (c2, p2, effs ++ effs2)
      | none => none
  | none => none

/-- How many times the attempt scheduled a completion closure
(grpc_exec_ctx_sched on the stored notify). -/
def countNotify (effs : List Effect) : Nat :=
  effs.countP (fun e => match e with | Effect.schedClosure _ _ => true | _ => false)

/-- A sample caller closure with a non-null callback pointer. -/
def sampleNotify : Closure := { cb := 1, cb_arg := 0 }

/-- Sample connect-in args with the given initial connect string. -/
def sampleInArgs (ics : List Nat) : ConnectInArgs :=
  { interested_parties := 0, addr := 4, deadline := 100,
    initial_connect_string := ics, channel_args := [] }

/-- A sample connector mid-attempt: two references outstanding, the caller's
notify closure stored, the given initial connect string and tcp endpoint. -/
def sampleConnector (ics : List Nat) (tcp : Option Endpoint) : connector :=
  { refs := 2, notify := some sampleNotify, args := sampleInArgs ics,
    result := { transport := none, channel_args := none },
    initial_string_buffer := [], tcp := tcp, handshake_mgr := [] }

/-- C1: the exactly-once-notification claim fails on the code. In a complete
attempt trace where the raw connect succeeds and the initial connect string is
non-empty, the write completion leaves no sub-operation outstanding
(`PendingOp.idleOp`), yet the completion closure was scheduled zero times and
the stored notify pointer is still armed: the attempt is dropped without
invoking its callback. -/
theorem runAttempt_initial_connect_string_drops_notify :
    (runAttempt (fun _a _e => some 0)
        (client_channel_factory_create_subchannel none "svc")
        (sampleInArgs [42]) { transport := none, channel_args := none }
        { cb := 1, cb_arg := 0 }
        [Event.tcpConnected (some 7) none, Event.writeDone none]).map
      (fun r => (r.2.1, countNotify r.2.2, r.1.notify)) =
    some (PendingOp.idleOp, 0, some { cb := 1, cb_arg := 0 }) := by
  decide

/-- C2: the claim that the connector proceeds to the handshake pipeline after
the initial-bytes write fails on the code. With a connected endpoint and a
non-empty initial connect string, `connected` issues only the endpoint write,
and the write-completion callback `on_initial_connect_string_sent` makes no
collaborator call at all — neither on write success nor on write failure —
so `grpc_handshake_manager_do_handshake` is never invoked on this path. -/
theorem initial_connect_string_write_skips_handshake :
    (connected (sampleConnector [42] (some 7)) none).2 = [Effect.endpointWrite 7 [42]] ∧
    (on_initial_connect_string_sent
        (connected (sampleConnector [42] (some 7)) none).1 none).2 = [] ∧
    (on_initial_connect_string_sent
        (connected (sampleConnector [42] (some 7)) none).1 (some 5)).2 = [] := by
  decide

/-- C3: when the handshake pipeline completes without error, `on_handshake_done`
constructs the chttp2 transport over the final endpoint (asserting construction
succeeded: the hypothesis `hct` is exactly what the GPR_ASSERT demands), starts
it reading from the leftover read buffer, stores transport and negotiated args
into the result slot, clears the notify pointer and schedules the completion
closure with no error. -/
theorem on_handshake_done_success_spec
    (create_transport : ChannelArgs → Endpoint → Option Transport) (c : connector)
    (ep : Endpoint) (hargs : ChannelArgs) (rb : ReadBuffer) (t : Transport) (n : Closure)
    (hct : create_transport hargs ep = some t) (hn : c.notify = some n) :
    on_handshake_done create_transport c ep hargs rb none =
      some ({ c with result := { transport := some t, channel_args := some hargs },
                     notify := none },
            [Effect.startReading t rb, Effect.schedClosure (some n) none]) := by
  unfold on_handshake_done
  rw [hct, hn]

/-- C3 witness at a concrete input. -/
theorem on_handshake_done_success_spec_witness :
    ((fun _a _e => some 9) : ChannelArgs → Endpoint → Option Transport) [] 7 = some 9 ∧
    (sampleConnector [] (some 7)).notify = some sampleNotify ∧
    on_handshake_done (fun _a _e => some 9) (sampleConnector [] (some 7)) 7 [] 3 none =
      some ({ sampleConnector [] (some 7) with
                result := { transport := some 9, channel_args := some [] },
                notify := none },
            [Effect.startReading 9 3, Effect.schedClosure (some sampleNotify) none]) :=
  ⟨rfl, rfl,
   on_handshake_done_success_spec (fun _a _e => some 9) (sampleConnector [] (some 7))
     7 [] 3 9 sampleNotify rfl rfl⟩

/-- C4: when the raw connect fails (the endpoint out-parameter is left NULL),
`connected` zeroes the result slot, clears the notify pointer and schedules the
completion closure with the underlying connect error; the only collaborator call
is that schedule — no write and no handshake is started. -/
theorem connected_failure_spec (c : connector) (error : GError) (n : Closure)
    (htcp : c.tcp = none) (hn : c.notify = some n) :
    connected c error =
      ({ c with result := { transport := none, channel_args := none }, notify := none },
       [Effect.schedClosure (some n) error]) := by
  unfold connected
  rw [htcp, hn]

/-- C4 witness at a concrete input. -/
theorem connected_failure_spec_witness :
    (sampleConnector [] none).tcp = none ∧
    (sampleConnector [] none).notify = some sampleNotify ∧
    connected (sampleConnector [] none) (some 5) =
      ({ sampleConnector [] none with
           result := { transport := none, channel_args := none }, notify := none },
       [Effect.schedClosure (some sampleNotify) (some 5)]) :=
  ⟨rfl, rfl, connected_failure_spec (sampleConnector [] none) (some 5) sampleNotify rfl rfl⟩

/-- C5: when the handshake pipeline reports a non-empty error,
`on_handshake_done` destroys the negotiated channel args, frees the leftover
read buffer, clears the notify pointer and schedules the completion closure with
the handshake error; no transport is constructed and the result slot is left
untouched. -/
theorem on_handshake_done_error_spec
    (create_transport : ChannelArgs → Endpoint → Option Transport) (c : connector)
    (ep : Endpoint) (hargs : ChannelArgs) (rb : ReadBuffer) (e : Nat) (n : Closure)
    (hn : c.notify = some n) :
    on_handshake_done create_transport c ep hargs rb (some e) =
      some ({ c with notify := none },
            [Effect.channelArgsDestroy hargs, Effect.freeReadBuffer rb,
             Effect.schedClosure (some n) (some e)]) ∧
    ({ c with notify := none } : connector).result = c.result := by
  constructor
  · unfold on_handshake_done
    rw [hn]
  · rfl

/-- C5 witness at a concrete input. -/
theorem on_handshake_done_error_spec_witness :
    (sampleConnector [] (some 7)).notify = some sampleNotify ∧
    (on_handshake_done (fun _a _e => some 9) (sampleConnector [] (some 7)) 7 [] 3 (some 4) =
      some ({ sampleConnector [] (some 7) with notify := none },
            [Effect.channelArgsDestroy [], Effect.freeReadBuffer 3,
             Effect.schedClosure (some sampleNotify) (some 4)]) ∧
     ({ sampleConnector [] (some 7) with notify := none } : connector).result =
       (sampleConnector [] (some 7)).result) :=
  ⟨rfl,
   on_handshake_done_error_spec (fun _a _e => some 9) (sampleConnector [] (some 7))
     7 [] 3 4 sampleNotify rfl⟩

/-- C6: `grpc_insecure_channel_create` (with a NULL reserved pointer, as its
assertion demands) always returns a non-null channel, and when the underlying
channel construction yields NULL it returns the lame channel with
GRPC_STATUS_INTERNAL and the fixed message instead of propagating NULL. -/
theorem grpc_insecure_channel_create_nonnull
    (grpc_channel_create : String → ChannelArgs → Option Channel) (factory_addr : Nat)
    (target : String) (args : ChannelArgs) (reserved : Nat) (h : reserved = 0) :
    (∃ ch, grpc_insecure_channel_create grpc_channel_create factory_addr target args
        reserved = some ch) ∧
    (grpc_channel_create target
        (grpc_channel_args_copy_and_add args (insecure_channel_new_args factory_addr target))
          = none →
      grpc_insecure_channel_create grpc_channel_create factory_addr target args reserved =
        some (Channel.lame target GRPC_STATUS_INTERNAL "Failed to create client channel")) := by
  subst h
  constructor
  · exact ⟨_, rfl⟩
  · intro hg
    simp [grpc_insecure_channel_create, client_channel_factory_create_channel, hg,
          grpc_lame_client_channel_create]

/-- C6 witness at a concrete input. -/
theorem grpc_insecure_channel_create_nonnull_witness :
    (0 : Nat) = 0 ∧
    ((∃ ch, grpc_insecure_channel_create (fun _t _a => none) 1 "t" [] 0 = some ch) ∧
     ((fun _t _a => (none : Option Channel)) "t"
          (grpc_channel_args_copy_and_add [] (insecure_channel_new_args 1 "t")) = none →
       grpc_insecure_channel_create (fun _t _a => none) 1 "t" [] 0 =
         some (Channel.lame "t" GRPC_STATUS_INTERNAL "Failed to create client channel"))) :=
  ⟨rfl, grpc_insecure_channel_create_nonnull (fun _t _a => none) 1 "t" [] 0 rfl⟩

/-- C7: the handshake pipeline of a subchannel's connector contains exactly one
HTTP CONNECT handshaker, parameterized with the looked-up proxy address and the
subchannel's server name, when the proxy lookup yields an address; and is empty
when it yields none. -/
theorem create_subchannel_proxy_pipeline (server_name : String) :
    (∀ p, (client_channel_factory_create_subchannel (some p) server_name).handshake_mgr =
        [Handshaker.httpConnect p server_name]) ∧
    (client_channel_factory_create_subchannel none server_name).handshake_mgr = [] :=
  ⟨fun _p => rfl, rfl⟩

/-- C8: `connector_connect` runs (rather than aborting on an assertion) exactly
when no connect is in flight (the stored notify pointer is the NULL sentinel)
and the supplied closure has a non-null callback; in particular a re-entrant
call, which finds the stored notify non-NULL, is a fatal assertion failure. -/
theorem connector_connect_preconditions (c : connector) (args : ConnectInArgs)
    (result : ConnectOutArgs) (n : Closure) :
    connector_connect c args result n ≠ none ↔ (c.notify = none ∧ n.cb ≠ 0) := by
  unfold connector_connect
  by_cases h1 : c.notify = none
  · by_cases h2 : n.cb = 0
    · simp [h1, h2]
    · simp [h1, h2]
  · simp [h1]

/-- C9: on the initial-bytes write path, `connected` increments the connector's
refcount by one before issuing the endpoint write of the initial connect string;
the write-completion callback releases exactly one reference whatever the write
error was; and releasing the last reference destroys the owned handshake manager
and frees the connector. -/
theorem initial_write_refcount_spec (c d : connector) (tcp : Endpoint)
    (error werror : GError)
    (htcp : c.tcp = some tcp) (hne : c.args.initial_connect_string ≠ []) :
    ((connected c error).1.refs = c.refs + 1 ∧
     (connected c error).2 = [Effect.endpointWrite tcp c.args.initial_connect_string]) ∧
    ((on_initial_connect_string_sent d werror).1.refs = d.refs - 1) ∧
    (d.refs = 1 →
      on_initial_connect_string_sent d werror =
        ({ d with refs := 0 },
         [Effect.handshakeMgrDestroy d.handshake_mgr, Effect.freeConnector])) := by
  have hb : GRPC_SLICE_IS_EMPTY c.args.initial_connect_string = false := by
    unfold GRPC_SLICE_IS_EMPTY
    cases hc : c.args.initial_connect_string with
    | nil => exact absurd hc hne
    | cons x xs => rfl
  refine ⟨?_, ?_, ?_⟩
  · unfold connected
    rw [htcp, hb]
    simp [connector_ref]
  · simp only [on_initial_connect_string_sent, connector_unref]
    split <;> rfl
  · intro hd
    unfold on_initial_connect_string_sent connector_unref
    simp [hd]

/-- C9 witness at concrete inputs (`d` is a fresh factory-built connector, whose
refcount is exactly 1). -/
theorem initial_write_refcount_spec_witness :
    (sampleConnector [42] (some 7)).tcp = some 7 ∧
    (sampleConnector [42] (some 7)).args.initial_connect_string ≠ [] ∧
    (((connected (sampleConnector [42] (some 7)) none).1.refs =
        (sampleConnector [42] (some 7)).refs + 1 ∧
      (connected (sampleConnector [42] (some 7)) none).2 =
        [Effect.endpointWrite 7 (sampleConnector [42] (some 7)).args.initial_connect_string]) ∧
     ((on_initial_connect_string_sent (client_channel_factory_create_subchannel none "svc")
          (some 5)).1.refs = (client_channel_factory_create_subchannel none "svc").refs - 1) ∧
     ((client_channel_factory_create_subchannel none "svc").refs = 1 →
       on_initial_connect_string_sent (client_channel_factory_create_subchannel none "svc")
           (some 5) =
         ({ client_channel_factory_create_subchannel none "svc" with refs := 0 },
          [Effect.handshakeMgrDestroy
             (client_channel_factory_create_subchannel none "svc").handshake_mgr,
           Effect.freeConnector]))) :=
  ⟨rfl, by decide,
   initial_write_refcount_spec (sampleConnector [42] (some 7))
     (client_channel_factory_create_subchannel none "svc") 7 none (some 5) rfl (by decide)⟩

/-- C10: the client-channel-factory pointer vtable never duplicates or frees the
factory — its copy returns the identical pointer, its destroy is a no-op — and
its compare orders two factory pointers by address: negative, zero, or positive
exactly as the first address is below, equal to, or above the second. -/
theorem cc_factory_arg_vtable_spec (p q : Nat) :
    cc_factory_arg_copy p = p ∧
    cc_factory_arg_destroy p = () ∧
    (cc_factory_arg_cmp p q < 0 ↔ p < q) ∧
    (cc_factory_arg_cmp p q = 0 ↔ p = q) ∧
    (0 < cc_factory_arg_cmp p q ↔ q < p) := by
  refine ⟨rfl, rfl, ?_, ?_, ?_⟩ <;>
    unfold cc_factory_arg_cmp <;> split <;> try split
  all_goals omega

end ChannelCreate
